import Mathlib

/-!
Shallow embedding of the device-manager module of an MCP server for Android
development (`adbdevicemanager.py`): device selection at construction time,
the lifecycle of a managed `flutter run` subprocess (start, hot reload,
hot restart, stop, log tailing), and the pure text-processing helpers
(`dumpsys` action-intent extraction, UI-layout rendering, log-file tailing).

External boundaries (the adb client, the filesystem, subprocess spawning,
`shutil.which`, `shlex.split`) are modelled as explicit oracle inputs, and
side effects are recorded as an explicit effect trace. Paths follow the
POSIX conventions of the source environment (`os.path.sep` is the slash,
`os.path.altsep` is `None`).
-/

namespace FlutterMcp

/-- Python truthiness of an optional string: `None` and the empty string are
falsy, every other string is truthy. -/
def truthyStr : Option String → Bool
  | none => false
  | some s => s != ""

/-- Python `repr` of a list of strings as interpolated by an f-string such as
`f"... {available_devices}"`: comma-separated single-quoted items in square
brackets (quote-escaping inside serials is not modelled; device serials do
not contain quotes). -/
def pyListRepr (xs : List String) : String :=
  "[" ++ String.intercalate ", " (xs.map (fun s => "\x27" ++ s ++ "\x27")) ++ "]"

/-- Outcome of `AdbDeviceManager.__init__`: either the program exits with a
message printed to stderr (`sys.exit(1)`), or a `RuntimeError` is raised, or
a device serial is selected. -/
inductive InitResult where
  | exited (msg : String)
  | raised (msg : String)
  | ok (selected : String)
  deriving DecidableEq, Repr

/-- The failure convention of `__init__`: print and exit when
`exit_on_error` is set, raise otherwise. -/
def failWith (exit_on_error : Bool) (msg : String) : InitResult :=
  if exit_on_error then .exited msg else .raised msg

/-- `AdbDeviceManager.__init__`, with the two external queries
(`check_adb_installed`, `get_available_devices`) supplied as inputs.
The informational `print` on auto-selection is not part of the result. -/
def adbInit (adb_installed : Bool) (available_devices : List String)
    (device_name : Option String) (exit_on_error : Bool) : InitResult :=
  if !adb_installed then
    failWith exit_on_error
      "adb is not installed or not in PATH. Please install adb and ensure it is in your PATH."
  else if available_devices.isEmpty then
    failWith exit_on_error "No devices connected. Please connect a device and try again."
  else if truthyStr device_name then
    let d := device_name.getD ""
    if d ∈ available_devices then .ok d
    else
      failWith exit_on_error
        ("Device " ++ d ++ " not found. Available devices: " ++ pyListRepr available_devices)
  else
    if available_devices.length = 1 then .ok (available_devices.headD "")
    else
      failWith exit_on_error
        ("Multiple devices connected: " ++ pyListRepr available_devices ++
          ". Please specify a device in config.yaml or connect only one device.")

/-- The managed `flutter run` child process as observable through its
`subprocess.Popen` handle: its pid, the answer `poll()` gives at the time of
the call (`none` while it is still running), and whether the `stdin` pipe
object is available (truthy). -/
structure FlutterProc where
  pid : Nat
  poll : Option Int
  stdin_ok : Bool
  deriving DecidableEq, Repr

/-- The log-file handle as far as the manager inspects it: only its
`closed` flag is ever read. -/
structure LogHandle where
  closed : Bool
  deriving DecidableEq, Repr

/-- The mutable fields of `AdbDeviceManager` that the flutter-run lifecycle
touches, plus the immutable selected serial. -/
structure Manager where
  device_serial : String
  flutter_process : Option FlutterProc
  flutter_log_path : Option String
  flutter_log_handle : Option LogHandle
  deriving DecidableEq, Repr

/-- Side effects performed against the process / filesystem boundaries,
recorded in order. -/
inductive Effect where
  | openLog (path : String)
  | closeLog
  | spawn (command : List String) (cwd : String)
  | sleep (seconds : Int)
  | writeStdin (s : String)
  | flushStdin
  | flushLog
  | killProc (pid : Nat)
  | waitProc (pid : Nat) (timeout : Int)
  deriving DecidableEq, Repr

/-- `AdbDeviceManager._cleanup_flutter_process_state`: close the log handle
if it is set and not already closed, then drop both the handle and the
process reference (the log path is kept). -/
def cleanup_flutter_process_state (st : Manager) : Manager × List Effect :=
  let eff :=
    match st.flutter_log_handle with
    | some h => if !h.closed then [Effect.closeLog] else []
    | none => []
  ({ st with flutter_log_handle := none, flutter_process := none }, eff)

/-- Python `str.rstrip` whitespace set (the six ASCII whitespace
characters). -/
def isPySpace (c : Char) : Bool :=
  c = ' ' || c = '\t' || c = '\n' || c = '\r' || c = '\x0b' || c = '\x0c'

/-- Python `str.rstrip()`. -/
def pyRstrip (s : String) : String :=
  String.mk ((s.toList.reverse.dropWhile isPySpace).reverse)

/-- Python `"".join(lines)`. -/
def pyJoin (xs : List String) : String := String.join xs

/-- Python `xs[-lines:]` for an integer `lines` (the slice start is the
negated argument): a positive argument keeps the last `lines` elements, zero
keeps everything, and a negative argument drops the first `-lines`
elements. -/
def pyTailSlice {α : Type} (xs : List α) (lines : Int) : List α :=
  if 0 < lines then xs.drop (xs.length - min xs.length lines.toNat)
  else xs.drop (-lines).toNat

/-- `AdbDeviceManager._tail_file`, with the filesystem answer supplied as
input: `none` when `os.path.exists` is false, otherwise the `readlines`
result (each line keeping its terminator). -/
def tail_file (contents : Option (List String)) (file_path : String) (lines : Int) : String :=
  match contents with
  | none => "No log file found at " ++ file_path
  | some file_lines =>
    if file_lines.isEmpty then "(log file is empty)"
    else pyRstrip (pyJoin (pyTailSlice file_lines lines))

/-- Does the executable reference contain a path separator? (`os.path.sep`
is the slash on the POSIX host; `os.path.altsep` is `None`, so that branch
of the source test is vacuous.) -/
def sepInName (s : String) : Bool := s.toList.contains '/'

/-- `AdbDeviceManager._resolve_flutter_executable`, with the two filesystem
oracles (`os.path.exists` on the given reference, and `shutil.which`)
supplied as inputs. Raising is modelled as `Except.error`. -/
def resolve_flutter_executable (exe_exists : Bool) (which_result : Option String)
    (flutter_executable : String) : Except String String :=
  if sepInName flutter_executable then
    if !exe_exists then
      .error ("Flutter executable not found at " ++ flutter_executable)
    else .ok flutter_executable
  else
    match which_result with
    | some resolved => .ok resolved
    | none =>
      .error ("Could not find \x27" ++ flutter_executable ++
        "\x27 on PATH. Pass an absolute flutter executable path.")

/-- POSIX `os.path.join` for a relative final component (the source always
joins with the fixed relative name of the log file). -/
def joinPath (dir name : String) : String :=
  if dir = "" then name
  else if dir.toList.getLast? = some '/' then dir ++ name
  else dir ++ "/" ++ name

/-- Oracle answers for the external boundaries consulted by one
`start_flutter_run` call: the project-directory check, the executable
resolution queries, the tokenizer for extra arguments, the pid the spawn
returns, the `poll()` answer observed after the startup sleep, and the log
contents read back on the early-exit path. -/
structure StartEnv where
  project_dir_isdir : Bool
  exe_exists : Bool
  which_result : Option String
  shlex_split : String → List String
  spawn_pid : Nat
  poll_after_wait : Option Int
  log_contents : Option (List String)

/-- The body of `start_flutter_run` after the already-running guard and the
stale-record cleanup. -/
def start_flutter_run_go (st : Manager) (env : StartEnv)
    (project_dir target flutter_executable : String)
    (additional_args : Option String) (startup_wait_seconds : Int) :
    Except String String × Manager × List Effect :=
  if !env.project_dir_isdir then
    (.error ("Project directory not found: " ++ project_dir), st, [])
  else
    match resolve_flutter_executable env.exe_exists env.which_result flutter_executable with
    | .error msg => (.error msg, st, [])
    | .ok flutter_cmd =>
      let command :=
        [flutter_cmd, "run", "-d", st.device_serial, "-t", target] ++
          (if truthyStr additional_args then env.shlex_split (additional_args.getD "") else [])
      let log_path := joinPath project_dir ".mcp_flutter_run.log"
      let st1 : Manager :=
        { st with
          flutter_log_path := some log_path
          flutter_log_handle := some { closed := false }
          flutter_process :=
            some { pid := env.spawn_pid, poll := env.poll_after_wait, stdin_ok := true } }
      let eff1 := [Effect.openLog log_path, Effect.spawn command project_dir,
        Effect.sleep (max 0 startup_wait_seconds)]
      match env.poll_after_wait with
      | some exit_code =>
        let failure_tail := tail_file env.log_contents log_path 80
        let c := cleanup_flutter_process_state st1
        (.ok ("flutter run exited early with code " ++ toString exit_code ++
          ".\nLog tail:\n" ++ failure_tail), c.1, eff1 ++ c.2)
      | none =>
        (.ok ("Started flutter run (pid: " ++ toString env.spawn_pid ++ ") on device " ++
          st1.device_serial ++ ".\nLog file: " ++ log_path), st1, eff1)

/-- `AdbDeviceManager.start_flutter_run`. An already-alive managed process
short-circuits with a narrative; a stale (exited) record is cleared first;
then the directory check, executable resolution, log-file creation, spawn,
startup sleep and early-exit check follow the source in order. -/
def start_flutter_run (st : Manager) (env : StartEnv)
    (project_dir target flutter_executable : String)
    (additional_args : Option String) (startup_wait_seconds : Int) :
    Except String String × Manager × List Effect :=
  match st.flutter_process with
  | some p =>
    if p.poll = none then
      (.ok ("Flutter run already active (pid: " ++ toString p.pid ++
        "). Use hot_reload_flutter_run / hot_restart_flutter_run or stop_flutter_run."),
        st, [])
    else
      let c := cleanup_flutter_process_state st
      let g :=
        start_flutter_run_go c.1 env project_dir target flutter_executable
          additional_args startup_wait_seconds
      (g.1, g.2.1, c.2 ++ g.2.2)
  | none =>
    start_flutter_run_go st env project_dir target flutter_executable
      additional_args startup_wait_seconds

/-- `AdbDeviceManager.hot_reload_flutter_run`. -/
def hot_reload_flutter_run (st : Manager) : String × Manager × List Effect :=
  match st.flutter_process with
  | none => ("No active flutter run process. Start one with start_flutter_run first.", st, [])
  | some p =>
    if p.poll ≠ none then
      ("No active flutter run process. Start one with start_flutter_run first.", st, [])
    else if !p.stdin_ok then
      ("Flutter process stdin is unavailable; cannot send hot reload command.", st, [])
    else
      ("Hot reload command sent to flutter run.", st,
        [Effect.writeStdin "r\n", Effect.flushStdin])

/-- `AdbDeviceManager.hot_restart_flutter_run`. -/
def hot_restart_flutter_run (st : Manager) : String × Manager × List Effect :=
  match st.flutter_process with
  | none => ("No active flutter run process. Start one with start_flutter_run first.", st, [])
  | some p =>
    if p.poll ≠ none then
      ("No active flutter run process. Start one with start_flutter_run first.", st, [])
    else if !p.stdin_ok then
      ("Flutter process stdin is unavailable; cannot send hot restart command.", st, [])
    else
      ("Hot restart command sent to flutter run.", st,
        [Effect.writeStdin "R\n", Effect.flushStdin])

/-- Oracle answers for one `stop_flutter_run` call: whether the child exits
within the clamped graceful wait, and — when it does not — whether the
fixed five-second wait after `kill()` observes the exit (when it does not,
the uncaught second `TimeoutExpired` propagates out of the method). -/
structure StopEnv where
  graceful_exit : Bool
  kill_wait_ok : Bool
  deriving DecidableEq, Repr

/-- `AdbDeviceManager.stop_flutter_run`. Raising is modelled as
`Except.error` (the propagated `subprocess.TimeoutExpired` of the second,
unguarded `wait`). -/
def stop_flutter_run (st : Manager) (env : StopEnv) (graceful_wait_seconds : Int) :
    Except String String × Manager × List Effect :=
  match st.flutter_process with
  | none =>
    let c := cleanup_flutter_process_state st
    (.ok "No active flutter run process.", c.1, c.2)
  | some p =>
    if p.poll ≠ none then
      let c := cleanup_flutter_process_state st
      (.ok "No active flutter run process.", c.1, c.2)
    else
      let quitEff :=
        if p.stdin_ok then [Effect.writeStdin "q\n", Effect.flushStdin] else []
      let waitEff := [Effect.waitProc p.pid (max 1 graceful_wait_seconds)]
      if env.graceful_exit then
        let c := cleanup_flutter_process_state st
        (.ok ("Stopped flutter run gracefully (pid: " ++ toString p.pid ++ ")."),
          c.1, quitEff ++ waitEff ++ c.2)
      else
        let killEff := [Effect.killProc p.pid, Effect.waitProc p.pid 5]
        if env.kill_wait_ok then
          let c := cleanup_flutter_process_state st
          (.ok ("Force-killed flutter run process (pid: " ++ toString p.pid ++ ")."),
            c.1, quitEff ++ waitEff ++ killEff ++ c.2)
        else
          (.error "subprocess.TimeoutExpired", st, quitEff ++ waitEff ++ killEff)

/-- `AdbDeviceManager.get_flutter_run_log`, with the log-file contents
supplied as input the way `_tail_file` sees them. -/
def get_flutter_run_log (st : Manager) (log_contents : Option (List String))
    (lines : Int) : String × List Effect :=
  match st.flutter_log_path with
  | none => ("No flutter log available yet. Start flutter run first.", [])
  | some path =>
    let eff :=
      match st.flutter_log_handle with
      | some h => if !h.closed then [Effect.flushLog] else []
      | none => []
    (tail_file log_contents path (max 1 lines), eff)

/-- Is the managed process record live: a process handle is set and
`poll()` reports no exit code. -/
def flutterActive (st : Manager) : Bool :=
  match st.flutter_process with
  | some p => p.poll.isNone
  | none => false

/-- Would `_resolve_flutter_executable` succeed under these oracle answers
for this executable reference? -/
def resolvable (env : StartEnv) (flutter_executable : String) : Bool :=
  if sepInName flutter_executable then env.exe_exists else env.which_result.isSome

/-- Did the call return normally (as opposed to raising)? -/
def exceptOk : Except String String → Bool
  | .ok _ => true
  | .error _ => false

/-- Recognizes the force-kill effect (the `kill()` call on the child). -/
def isKillEffect : Effect → Bool
  | .killProc _ => true
  | _ => false

/-- Python `hay.find(pat)` over character lists: the first index at which
the pattern occurs, `none` where Python returns `-1`. -/
def findSub : List Char → List Char → Option Nat
  | [], pat => if pat.isPrefixOf ([] : List Char) then some 0 else none
  | c :: t, pat =>
    if pat.isPrefixOf (c :: t) then some 0
    else (findSub t pat).map (fun i => i + 1)

/-- Python `s.split("\n")` over character lists (always at least one
part). -/
def splitLines : List Char → List (List Char)
  | [] => [[]]
  | c :: t =>
    if c = '\n' then [] :: splitLines t
    else
      match splitLines t with
      | [] => [[c]]
      | h :: r => (c :: h) :: r

/-- Python `str.strip()` (both ends, ASCII whitespace set). -/
def pyStrip (l : List Char) : List Char :=
  ((l.dropWhile isPySpace).reverse.dropWhile isPySpace).reverse

/-- The test of the extraction loop:
`line.startswith("android.") or line.startswith("com.")`. -/
def isActionLine (l : List Char) : Bool :=
  ("android.".toList).isPrefixOf l || ("com.".toList).isPrefixOf l

/-- The extraction loop of `get_package_action_intents`: strip each line
and keep it when the namespace test passes. -/
def collectActions : List (List Char) → List String
  | [] => []
  | l :: rest =>
    let line := pyStrip l
    if isActionLine line then String.mk line :: collectActions rest
    else collectActions rest

/-- The marker of the `Activity Resolver Table` section. -/
def resolverHeader : List Char := "Activity Resolver Table:".toList

/-- The marker of the `Non-Data Actions` subsection (preceded by its
newline, as searched by the source). -/
def nonDataHeader : List Char := "\n  Non-Data Actions:".toList

/-- The blank-line separator bounding the subsection. -/
def blankSep : List Char := "\n\n".toList

/-- The bounded `Non-Data Actions` subsection of a `dumpsys package`
output: the text from the subsection marker (inside the resolver section)
up to the first blank-line separator, or to the end of the text. `none`
when either marker is absent. -/
def nonDataSection (output : String) : Option (List Char) :=
  let o := output.toList
  match findSub o resolverHeader with
  | none => none
  | some i =>
    let resolver_section := o.drop i
    match findSub resolver_section nonDataHeader with
    | none => none
    | some j =>
      match findSub (resolver_section.drop j) blankSep with
      | none => some (resolver_section.drop j)
      | some k => some ((resolver_section.drop j).take k)

/-- `AdbDeviceManager.get_package_action_intents`, applied to the text the
device shell returned for `dumpsys package <name>`. -/
def get_package_action_intents (output : String) : List String :=
  match nonDataSection output with
  | none => []
  | some sec => collectActions (splitLines sec)

/-- Claim-shaped restatement of the extraction: the trimmed lines of the
bounded subsection that begin with a namespace marker, in original
order. -/
def specActionIntents (output : String) : List String :=
  match nonDataSection output with
  | none => []
  | some sec =>
    ((splitLines sec).map (fun l => String.mk (pyStrip l))).filter
      (fun s => isActionLine s.toList)

/-- Greedy run of decimal digits (the `\d+` atoms of the bounds
pattern). -/
def takeDigits : List Char → List Char × List Char
  | [] => ([], [])
  | c :: t =>
    if c.isDigit then
      let p := takeDigits t
      (c :: p.1, p.2)
    else ([], c :: t)

/-- Digit run to number (Python `int`). -/
def digitsToNat (ds : List Char) : Nat :=
  ds.foldl (fun acc c => acc * 10 + (c.toNat - 48)) 0

/-- One match of the bounds pattern at the head of the input: a bracketed
`x,y` digit pair; returns the two numbers and the rest of the input. -/
def matchPair : List Char → Option (Nat × Nat × List Char)
  | '[' :: t =>
    let p1 := takeDigits t
    if p1.1.isEmpty then none
    else
      match p1.2 with
      | ',' :: t2 =>
        let p2 := takeDigits t2
        if p2.1.isEmpty then none
        else
          match p2.2 with
          | ']' :: t3 => some (digitsToNat p1.1, digitsToNat p2.1, t3)
          | _ => none
      | _ => none
  | _ => none

/-- Scanner behind the `re.findall` of the bounds pattern: leftmost,
non-overlapping matches. The fuel starts at the input length; every step
consumes at least one character, so it never runs out. -/
def findBoundsPairsAux : Nat → List Char → List (Nat × Nat)
  | 0, _ => []
  | _ + 1, [] => []
  | fuel + 1, c :: t =>
    match matchPair (c :: t) with
    | some (x, y, rest) => (x, y) :: findBoundsPairsAux fuel rest
    | none => findBoundsPairsAux fuel t

/-- `re.findall(r"\[(\d+),(\d+)\]", bounds_str)` as number pairs. -/
def findBoundsPairs (l : List Char) : List (Nat × Nat) :=
  findBoundsPairsAux l.length l

/-- `calculate_center` of `get_uilayout`: defined only when the bounds
string parses into exactly two coordinate pairs; integer (floor)
midpoint. -/
def calculate_center (bounds_str : String) : Option (Nat × Nat) :=
  match findBoundsPairs bounds_str.toList with
  | [(x1, y1), (x2, y2)] => some ((x1 + x2) / 2, (y1 + y2) / 2)
  | _ => none

/-- One clickable node of the parsed UI dump, with the three attributes the
source reads (`element.get` defaults to the empty string). The XML parsing
and the `.//node[@clickable=true]` selection are the external boundary; the
embedding starts from the selected nodes. -/
structure UINode where
  text : String
  content_desc : String
  bounds : String
  deriving DecidableEq, Repr

/-- The per-element block without the optional center line: header, text
line (when non-empty), description line (when non-empty), bounds line. -/
def element_info_base (e : UINode) : String :=
  let s1 := "Clickable element:"
  let s2 := if e.text != "" then s1 ++ "\n  Text: " ++ e.text else s1
  let s3 := if e.content_desc != "" then s2 ++ "\n  Description: " ++ e.content_desc else s2
  s3 ++ "\n  Bounds: " ++ e.bounds

/-- The per-element block, with the center line appended when the bounds
parse (a returned Python tuple is always truthy, `None` is falsy). -/
def element_info (e : UINode) : String :=
  match calculate_center e.bounds with
  | some c =>
    element_info_base e ++ "\n  Center: (" ++ toString c.1 ++ ", " ++ toString c.2 ++ ")"
  | none => element_info_base e

/-- The inclusion filter of the loop: only elements with text or content
description are emitted. -/
def render_element (e : UINode) : Option String :=
  if e.text != "" || e.content_desc != "" then some (element_info e) else none

/-- `AdbDeviceManager.get_uilayout`, applied to the clickable nodes of the
retrieved UI dump. -/
def get_uilayout (elements : List UINode) : String :=
  let clickable_elements := elements.filterMap render_element
  if clickable_elements.isEmpty then "No clickable elements found with text or description"
  else String.intercalate "\n\n" clickable_elements

end FlutterMcp

namespace FlutterMcp

/-- Helper: the post-guard body of `start_flutter_run` on the early-exit
path, in closed form. -/
theorem start_go_early_exit (st : Manager) (env : StartEnv) (pd tg fe : String)
    (aa : Option String) (w exit_code : Int) (cmd : String)
    (hdir : env.project_dir_isdir = true)
    (hexe : resolve_flutter_executable env.exe_exists env.which_result fe = .ok cmd)
    (hpoll : env.poll_after_wait = some exit_code) :
    start_flutter_run_go st env pd tg fe aa w =
      (.ok ("flutter run exited early with code " ++ toString exit_code ++
          ".\nLog tail:\n" ++ tail_file env.log_contents (joinPath pd ".mcp_flutter_run.log") 80),
        { st with flutter_process := none,
                  flutter_log_path := some (joinPath pd ".mcp_flutter_run.log"),
                  flutter_log_handle := none },
        [Effect.openLog (joinPath pd ".mcp_flutter_run.log"),
          Effect.spawn ([cmd, "run", "-d", st.device_serial, "-t", tg] ++
            (if truthyStr aa then env.shlex_split (aa.getD "") else [])) pd,
          Effect.sleep (max 0 w), Effect.closeLog]) := by
  simp [start_flutter_run_go, hdir, hexe, hpoll, cleanup_flutter_process_state]

end FlutterMcp

namespace FlutterMcp

/-- C1: the tri-state device-selection policy of `__init__` over non-empty
attached-device sets: no request plus exactly one device auto-selects it; no
request plus several devices fails (exit or raise per the strictness flag)
with the ambiguity message listing all serials; a (non-blank) requested
serial absent from the attached set fails with a message naming the request
and the full list; a requested serial present in the set is selected exactly,
whatever the set size. -/
theorem adbInit_tri_state (devices : List String) (e : Bool) (hdev : devices ≠ []) :
    (∀ d, devices = [d] → adbInit true devices none e = .ok d) ∧
    (2 ≤ devices.length → adbInit true devices none e =
      failWith e ("Multiple devices connected: " ++ pyListRepr devices ++
        ". Please specify a device in config.yaml or connect only one device.")) ∧
    (∀ d, d ≠ "" → d ∉ devices → adbInit true devices (some d) e =
      failWith e ("Device " ++ d ++ " not found. Available devices: " ++ pyListRepr devices)) ∧
    (∀ d, d ≠ "" → d ∈ devices → adbInit true devices (some d) e = .ok d) := by
  have hne : ¬ devices.isEmpty := by
    cases devices with
    | nil => exact absurd rfl hdev
    | cons a t => simp
  refine ⟨?_, ?_, ?_, ?_⟩
  · rintro d rfl
    simp [adbInit, truthyStr]
  · intro h2
    have hlen : devices.length ≠ 1 := by omega
    simp [adbInit, truthyStr, hne, hlen]
  · intro d hd hmem
    simp [adbInit, truthyStr, hd, hne, hmem]
  · intro d hd hmem
    simp [adbInit, truthyStr, hd, hne, hmem]

/-- Witness for `adbInit_tri_state` at concrete attached-device sets. -/
theorem adbInit_tri_state_witness :
    adbInit true ["emulator-5554"] none true = .ok "emulator-5554" ∧
    adbInit true ["a", "b"] none false =
      .raised ("Multiple devices connected: " ++ pyListRepr ["a", "b"] ++
        ". Please specify a device in config.yaml or connect only one device.") ∧
    adbInit true ["a", "b"] (some "c") false =
      .raised ("Device c not found. Available devices: " ++ pyListRepr ["a", "b"]) ∧
    adbInit true ["a", "b"] (some "b") true = .ok "b" := by
  refine ⟨?_, ?_, ?_, ?_⟩
  · exact (adbInit_tri_state ["emulator-5554"] true (by decide)).1 "emulator-5554" rfl
  · exact (adbInit_tri_state ["a", "b"] false (by decide)).2.1 (by decide)
  · exact (adbInit_tri_state ["a", "b"] false (by decide)).2.2.1 "c" (by decide) (by decide)
  · exact (adbInit_tri_state ["a", "b"] true (by decide)).2.2.2 "b" (by decide) (by decide)

end FlutterMcp

namespace FlutterMcp

/-- C2: single-flight start — whenever the managed process handle is set and
`poll()` reports no exit code, `start_flutter_run` returns the
already-active narrative naming the existing pid, performs no effect (no
spawn, no log-file open), and leaves every field of the manager record
unchanged. -/
theorem start_single_flight (st : Manager) (p : FlutterProc) (env : StartEnv)
    (project_dir target flutter_executable : String) (additional_args : Option String)
    (startup_wait_seconds : Int)
    (hp : st.flutter_process = some p) (halive : p.poll = none) :
    start_flutter_run st env project_dir target flutter_executable additional_args
        startup_wait_seconds =
      (.ok ("Flutter run already active (pid: " ++ toString p.pid ++
        "). Use hot_reload_flutter_run / hot_restart_flutter_run or stop_flutter_run."),
        st, []) := by
  simp [start_flutter_run, hp, halive]

/-- Witness for `start_single_flight` at a concrete running record. -/
theorem start_single_flight_witness :
    start_flutter_run
        { device_serial := "emulator-5554",
          flutter_process := some { pid := 41, poll := none, stdin_ok := true },
          flutter_log_path := some "app/.mcp_flutter_run.log",
          flutter_log_handle := some { closed := false } }
        { project_dir_isdir := true, exe_exists := true, which_result := some "/us/flutter",
          shlex_split := fun _ => [], spawn_pid := 99, poll_after_wait := none,
          log_contents := none }
        "app" "lib/main.dart" "flutter" none 8 =
      (.ok ("Flutter run already active (pid: " ++ toString 41 ++
        "). Use hot_reload_flutter_run / hot_restart_flutter_run or stop_flutter_run."),
        { device_serial := "emulator-5554",
          flutter_process := some { pid := 41, poll := none, stdin_ok := true },
          flutter_log_path := some "app/.mcp_flutter_run.log",
          flutter_log_handle := some { closed := false } }, []) :=
  start_single_flight _ { pid := 41, poll := none, stdin_ok := true } _ _ _ _ _ _ rfl rfl

/-- C4: when the spawned child has already exited by the end of the startup
wait, `start_flutter_run` does not raise: it returns a failure narrative
embedding the exit code and the last 80 lines of the log file, and clears
the record (log handle closed and dropped, process handle dropped) before
returning; the startup sleep is clamped to non-negative. -/
theorem start_early_exit_reported (st : Manager) (env : StartEnv) (pd tg fe : String)
    (aa : Option String) (w : Int) (exit_code : Int) (cmd : String) (ls : List String)
    (hactive : flutterActive st = false)
    (hdir : env.project_dir_isdir = true)
    (hexe : resolve_flutter_executable env.exe_exists env.which_result fe = .ok cmd)
    (hpoll : env.poll_after_wait = some exit_code)
    (hlog : env.log_contents = some ls) (hne : ls ≠ []) :
    (start_flutter_run st env pd tg fe aa w).1 =
      .ok ("flutter run exited early with code " ++ toString exit_code ++
        ".\nLog tail:\n" ++ pyRstrip (pyJoin (ls.drop (ls.length - min ls.length 80)))) ∧
    (start_flutter_run st env pd tg fe aa w).2.1.flutter_process = none ∧
    (start_flutter_run st env pd tg fe aa w).2.1.flutter_log_handle = none ∧
    Effect.closeLog ∈ (start_flutter_run st env pd tg fe aa w).2.2 ∧
    Effect.sleep (max 0 w) ∈ (start_flutter_run st env pd tg fe aa w).2.2 := by
  have htail : tail_file env.log_contents (joinPath pd ".mcp_flutter_run.log") 80 =
      pyRstrip (pyJoin (ls.drop (ls.length - min ls.length 80))) := by
    have h0 : ¬ ls.isEmpty := by simpa using hne
    simp [tail_file, hlog, h0, pyTailSlice]
  cases hfp : st.flutter_process with
  | none =>
    have hgo := start_go_early_exit st env pd tg fe aa w exit_code cmd hdir hexe hpoll
    rw [start_flutter_run]
    simp only [hfp]
    rw [hgo, htail]
    simp
  | some p =>
    have hpoll' : ¬ p.poll = none := by
      cases hpq : p.poll with
      | none =>
        rw [flutterActive, hfp] at hactive
        simp [hpq] at hactive
      | some c => simp
    have hgo := start_go_early_exit (cleanup_flutter_process_state st).1 env pd tg fe aa w
      exit_code cmd hdir hexe hpoll
    rw [start_flutter_run]
    simp only [hfp, if_neg (by simpa using hpoll')]
    rw [hgo, htail]
    simp [cleanup_flutter_process_state]

end FlutterMcp

namespace FlutterMcp

/-- Witness for `start_early_exit_reported`: a child that dies with exit
code 1 during the startup wait yields the failure narrative with the log
tail, and the record is cleared. -/
theorem start_early_exit_reported_witness :
    (start_flutter_run
        { device_serial := "emulator-5554", flutter_process := none,
          flutter_log_path := none, flutter_log_handle := none }
        { project_dir_isdir := true, exe_exists := false,
          which_result := some "/sdk/bin/flutter", shlex_split := fun _ => [],
          spawn_pid := 5, poll_after_wait := some 1, log_contents := some ["boom\n"] }
        "proj" "lib/main.dart" "flutter" none 8).1 =
      .ok "flutter run exited early with code 1.\nLog tail:\nboom" ∧
    (start_flutter_run
        { device_serial := "emulator-5554", flutter_process := none,
          flutter_log_path := none, flutter_log_handle := none }
        { project_dir_isdir := true, exe_exists := false,
          which_result := some "/sdk/bin/flutter", shlex_split := fun _ => [],
          spawn_pid := 5, poll_after_wait := some 1, log_contents := some ["boom\n"] }
        "proj" "lib/main.dart" "flutter" none 8).2.1.flutter_process = none := by
  have h := start_early_exit_reported
    { device_serial := "emulator-5554", flutter_process := none,
      flutter_log_path := none, flutter_log_handle := none }
    { project_dir_isdir := true, exe_exists := false,
      which_result := some "/sdk/bin/flutter", shlex_split := fun _ => [],
      spawn_pid := 5, poll_after_wait := some 1, log_contents := some ["boom\n"] }
    "proj" "lib/main.dart" "flutter" none 8 1 "/sdk/bin/flutter" ["boom\n"]
    (by decide) (by decide) rfl rfl rfl (by decide)
  refine ⟨h.1.trans ?_, h.2.1⟩
  rfl

/-- Helper: when the record is not live, `start_flutter_run` hands over to
the post-guard body on some state. -/
theorem start_result_via_go (st : Manager) (env : StartEnv) (pd tg fe : String)
    (aa : Option String) (w : Int) (h : flutterActive st = false) :
    ∃ st2, (start_flutter_run st env pd tg fe aa w).1 =
      (start_flutter_run_go st2 env pd tg fe aa w).1 := by
  cases hfp : st.flutter_process with
  | none => exact ⟨st, by rw [start_flutter_run]; simp only [hfp]⟩
  | some p =>
    have hpoll' : ¬ p.poll = none := by
      cases hpq : p.poll with
      | none => rw [flutterActive, hfp] at h; simp [hpq] at h
      | some c => simp
    refine ⟨(cleanup_flutter_process_state st).1, ?_⟩
    rw [start_flutter_run]
    simp only [hfp, if_neg (by simpa using hpoll')]

/-- C5: `start_flutter_run` raises precisely for the two caller-configuration
failures — missing project directory, and unresolvable executable reference
(a reference holding a path separator must exist as given, a bare name must
resolve on the search path) — and in every other non-running situation it
returns a narrative rather than raising. -/
theorem start_raises_precisely (st : Manager) (env : StartEnv) (pd tg fe : String)
    (aa : Option String) (w : Int) :
    (flutterActive st = false → env.project_dir_isdir = false →
      (start_flutter_run st env pd tg fe aa w).1 =
        .error ("Project directory not found: " ++ pd)) ∧
    (flutterActive st = false → env.project_dir_isdir = true → sepInName fe = true →
        env.exe_exists = false →
      (start_flutter_run st env pd tg fe aa w).1 =
        .error ("Flutter executable not found at " ++ fe)) ∧
    (flutterActive st = false → env.project_dir_isdir = true → sepInName fe = false →
        env.which_result = none →
      (start_flutter_run st env pd tg fe aa w).1 =
        .error ("Could not find \x27" ++ fe ++
          "\x27 on PATH. Pass an absolute flutter executable path.")) ∧
    ((flutterActive st = true ∨ (env.project_dir_isdir = true ∧ resolvable env fe = true)) →
      exceptOk (start_flutter_run st env pd tg fe aa w).1 = true) := by
  have hActiveOk : flutterActive st = true →
      exceptOk (start_flutter_run st env pd tg fe aa w).1 = true := by
    intro hact
    rw [flutterActive] at hact
    cases hfp : st.flutter_process with
    | none => rw [hfp] at hact; simp at hact
    | some p =>
      rw [hfp] at hact
      have hp : p.poll = none := by
        cases hpq : p.poll with
        | none => rfl
        | some c => simp [hpq] at hact
      rw [start_flutter_run]
      simp only [hfp, hp]
      simp [exceptOk]
  refine ⟨?_, ?_, ?_, ?_⟩
  · intro hact hdir
    obtain ⟨st2, heq⟩ := start_result_via_go st env pd tg fe aa w hact
    rw [heq]
    simp [start_flutter_run_go, hdir]
  · intro hact hdir hsep hex
    obtain ⟨st2, heq⟩ := start_result_via_go st env pd tg fe aa w hact
    rw [heq]
    simp [start_flutter_run_go, hdir, resolve_flutter_executable, hsep, hex]
  · intro hact hdir hsep hwhich
    obtain ⟨st2, heq⟩ := start_result_via_go st env pd tg fe aa w hact
    rw [heq]
    simp [start_flutter_run_go, hdir, resolve_flutter_executable, hsep, hwhich]
  · rintro (hact | ⟨hdir, hres⟩)
    · exact hActiveOk hact
    · by_cases hact : flutterActive st = true
      · exact hActiveOk hact
      · have hact' : flutterActive st = false := by simpa using hact
        obtain ⟨st2, heq⟩ := start_result_via_go st env pd tg fe aa w hact'
        rw [heq]
        obtain ⟨cmd, hcmd⟩ :
            ∃ c, resolve_flutter_executable env.exe_exists env.which_result fe = .ok c := by
          rw [resolvable] at hres
          by_cases hsep : sepInName fe
          · rw [if_pos hsep] at hres
            exact ⟨fe, by simp [resolve_flutter_executable, hsep, hres]⟩
          · rw [if_neg hsep] at hres
            obtain ⟨r, hr⟩ := Option.isSome_iff_exists.mp hres
            exact ⟨r, by simp [resolve_flutter_executable, hsep, hr]⟩
        cases hpw : env.poll_after_wait with
        | some c => simp [start_flutter_run_go, hdir, hcmd, hpw, exceptOk]
        | none => simp [start_flutter_run_go, hdir, hcmd, hpw, exceptOk]

/-- Witness for `start_raises_precisely` at concrete configurations: a
missing project directory raises, an absent explicit path raises, an
unresolvable bare name raises, and a resolvable configuration returns a
narrative. -/
theorem start_raises_precisely_witness :
    (start_flutter_run
        { device_serial := "emu", flutter_process := none,
          flutter_log_path := none, flutter_log_handle := none }
        { project_dir_isdir := false, exe_exists := true, which_result := none,
          shlex_split := fun _ => [], spawn_pid := 5, poll_after_wait := none,
          log_contents := none }
        "nope" "lib/main.dart" "flutter" none 8).1 =
      .error "Project directory not found: nope" ∧
    (start_flutter_run
        { device_serial := "emu", flutter_process := none,
          flutter_log_path := none, flutter_log_handle := none }
        { project_dir_isdir := true, exe_exists := false, which_result := none,
          shlex_split := fun _ => [], spawn_pid := 5, poll_after_wait := none,
          log_contents := none }
        "proj" "lib/main.dart" "/opt/flutter/bin/flutter" none 8).1 =
      .error "Flutter executable not found at /opt/flutter/bin/flutter" ∧
    (start_flutter_run
        { device_serial := "emu", flutter_process := none,
          flutter_log_path := none, flutter_log_handle := none }
        { project_dir_isdir := true, exe_exists := true, which_result := none,
          shlex_split := fun _ => [], spawn_pid := 5, poll_after_wait := none,
          log_contents := none }
        "proj" "lib/main.dart" "flutter" none 8).1 =
      .error ("Could not find \x27flutter\x27 on PATH. Pass an absolute flutter executable path.") ∧
    exceptOk (start_flutter_run
        { device_serial := "emu", flutter_process := none,
          flutter_log_path := none, flutter_log_handle := none }
        { project_dir_isdir := true, exe_exists := true, which_result := some "/sdk/flutter",
          shlex_split := fun _ => [], spawn_pid := 5, poll_after_wait := none,
          log_contents := none }
        "proj" "lib/main.dart" "flutter" none 8).1 = true := by
  refine ⟨?_, ?_, ?_, ?_⟩
  · exact (start_raises_precisely
      { device_serial := "emu", flutter_process := none,
        flutter_log_path := none, flutter_log_handle := none }
      { project_dir_isdir := false, exe_exists := true, which_result := none,
        shlex_split := fun _ => [], spawn_pid := 5, poll_after_wait := none,
        log_contents := none }
      "nope" "lib/main.dart" "flutter" none 8).1 (by decide) (by decide)
  · exact (start_raises_precisely
      { device_serial := "emu", flutter_process := none,
        flutter_log_path := none, flutter_log_handle := none }
      { project_dir_isdir := true, exe_exists := false, which_result := none,
        shlex_split := fun _ => [], spawn_pid := 5, poll_after_wait := none,
        log_contents := none }
      "proj" "lib/main.dart" "/opt/flutter/bin/flutter" none 8).2.1
      (by decide) (by decide) (by decide) (by decide)
  · exact (start_raises_precisely
      { device_serial := "emu", flutter_process := none,
        flutter_log_path := none, flutter_log_handle := none }
      { project_dir_isdir := true, exe_exists := true, which_result := none,
        shlex_split := fun _ => [], spawn_pid := 5, poll_after_wait := none,
        log_contents := none }
      "proj" "lib/main.dart" "flutter" none 8).2.2.1
      (by decide) (by decide) (by decide) (by decide)
  · exact (start_raises_precisely
      { device_serial := "emu", flutter_process := none,
        flutter_log_path := none, flutter_log_handle := none }
      { project_dir_isdir := true, exe_exists := true, which_result := some "/sdk/flutter",
        shlex_split := fun _ => [], spawn_pid := 5, poll_after_wait := none,
        log_contents := none }
      "proj" "lib/main.dart" "flutter" none 8).2.2.2
      (Or.inr ⟨by decide, by decide⟩)

end FlutterMcp

namespace FlutterMcp

/-- C3 counterexample: with a live managed process whose child neither exits
within the graceful wait nor is observed exited within the fixed five-second
wait after `kill()`, `stop_flutter_run` raises (the second, unguarded `wait`
propagates `TimeoutExpired`) and the managed-process record is NOT cleared —
the process handle and the open log handle are left in place. -/
theorem stop_unkillable_counterexample :
    (stop_flutter_run
        { device_serial := "emulator-5554",
          flutter_process := some { pid := 7, poll := none, stdin_ok := true },
          flutter_log_path := some "proj/.mcp_flutter_run.log",
          flutter_log_handle := some { closed := false } }
        { graceful_exit := false, kill_wait_ok := false } 10).1 =
      .error "subprocess.TimeoutExpired" ∧
    (stop_flutter_run
        { device_serial := "emulator-5554",
          flutter_process := some { pid := 7, poll := none, stdin_ok := true },
          flutter_log_path := some "proj/.mcp_flutter_run.log",
          flutter_log_handle := some { closed := false } }
        { graceful_exit := false, kill_wait_ok := false } 10).2.1 =
      { device_serial := "emulator-5554",
        flutter_process := some { pid := 7, poll := none, stdin_ok := true },
        flutter_log_path := some "proj/.mcp_flutter_run.log",
        flutter_log_handle := some { closed := false } } :=
  ⟨rfl, rfl⟩

/-- C3 (amended): for a live managed process, if the child exits within the
graceful wait (clamped to at least 1 second) the result reports a graceful
stop; otherwise the child is force-killed exactly once and, provided the
five-second post-kill wait observes the exit, the result reports a forced
stop; on both of those paths the record is cleared afterward (log handle
closed and dropped, process handle dropped). When the post-kill wait also
times out, the call raises and the record is left unchanged. -/
theorem stop_flutter_run_amended (st : Manager) (p : FlutterProc) (env : StopEnv) (w : Int)
    (hp : st.flutter_process = some p) (halive : p.poll = none) :
    (env.graceful_exit = true →
      stop_flutter_run st env w =
        (.ok ("Stopped flutter run gracefully (pid: " ++ toString p.pid ++ ")."),
          (cleanup_flutter_process_state st).1,
          (if p.stdin_ok then [Effect.writeStdin "q\n", Effect.flushStdin] else []) ++
            [Effect.waitProc p.pid (max 1 w)] ++ (cleanup_flutter_process_state st).2)) ∧
    (env.graceful_exit = false → env.kill_wait_ok = true →
      stop_flutter_run st env w =
        (.ok ("Force-killed flutter run process (pid: " ++ toString p.pid ++ ")."),
          (cleanup_flutter_process_state st).1,
          (if p.stdin_ok then [Effect.writeStdin "q\n", Effect.flushStdin] else []) ++
            [Effect.waitProc p.pid (max 1 w)] ++
            [Effect.killProc p.pid, Effect.waitProc p.pid 5] ++
            (cleanup_flutter_process_state st).2)) ∧
    (env.graceful_exit = false → env.kill_wait_ok = false →
      stop_flutter_run st env w =
        (.error "subprocess.TimeoutExpired", st,
          (if p.stdin_ok then [Effect.writeStdin "q\n", Effect.flushStdin] else []) ++
            [Effect.waitProc p.pid (max 1 w)] ++
            [Effect.killProc p.pid, Effect.waitProc p.pid 5])) ∧
    ((cleanup_flutter_process_state st).1.flutter_process = none ∧
      (cleanup_flutter_process_state st).1.flutter_log_handle = none) ∧
    (((stop_flutter_run st env w).2.2.filter isKillEffect).length =
      if env.graceful_exit then 0 else 1) := by
  rw [stop_flutter_run]
  simp only [hp]
  rw [if_neg (by simp [halive])]
  refine ⟨?_, ?_, ?_, ?_, ?_⟩
  · intro hg
    simp [hg]
  · intro hg hk
    simp [hg, hk]
  · intro hg hk
    simp [hg, hk]
  · simp [cleanup_flutter_process_state]
  · rcases hh : st.flutter_log_handle with _ | h
    · cases hg : env.graceful_exit <;> cases hk : env.kill_wait_ok <;>
        cases hs : p.stdin_ok <;>
        simp [hg, hk, hs, cleanup_flutter_process_state, hh, isKillEffect]
    · cases hg : env.graceful_exit <;> cases hk : env.kill_wait_ok <;>
        cases hs : p.stdin_ok <;> cases hc : h.closed <;>
        simp [hg, hk, hs, hc, cleanup_flutter_process_state, hh, isKillEffect]

/-- Witness for `stop_flutter_run_amended`: a child that exits gracefully,
and one that needs the kill path, at a concrete record. -/
theorem stop_flutter_run_amended_witness :
    stop_flutter_run
        { device_serial := "emu",
          flutter_process := some { pid := 9, poll := none, stdin_ok := true },
          flutter_log_path := some "proj/.mcp_flutter_run.log",
          flutter_log_handle := some { closed := false } }
        { graceful_exit := true, kill_wait_ok := true } 10 =
      (.ok "Stopped flutter run gracefully (pid: 9).",
        { device_serial := "emu", flutter_process := none,
          flutter_log_path := some "proj/.mcp_flutter_run.log",
          flutter_log_handle := none },
        [Effect.writeStdin "q\n", Effect.flushStdin, Effect.waitProc 9 10,
          Effect.closeLog]) ∧
    stop_flutter_run
        { device_serial := "emu",
          flutter_process := some { pid := 9, poll := none, stdin_ok := true },
          flutter_log_path := some "proj/.mcp_flutter_run.log",
          flutter_log_handle := some { closed := false } }
        { graceful_exit := false, kill_wait_ok := true } 10 =
      (.ok "Force-killed flutter run process (pid: 9).",
        { device_serial := "emu", flutter_process := none,
          flutter_log_path := some "proj/.mcp_flutter_run.log",
          flutter_log_handle := none },
        [Effect.writeStdin "q\n", Effect.flushStdin, Effect.waitProc 9 10,
          Effect.killProc 9, Effect.waitProc 9 5, Effect.closeLog]) := by
  constructor
  · have h := (stop_flutter_run_amended
      { device_serial := "emu",
        flutter_process := some { pid := 9, poll := none, stdin_ok := true },
        flutter_log_path := some "proj/.mcp_flutter_run.log",
        flutter_log_handle := some { closed := false } }
      { pid := 9, poll := none, stdin_ok := true }
      { graceful_exit := true, kill_wait_ok := true } 10 rfl rfl).1 rfl
    exact h.trans rfl
  · have h := (stop_flutter_run_amended
      { device_serial := "emu",
        flutter_process := some { pid := 9, poll := none, stdin_ok := true },
        flutter_log_path := some "proj/.mcp_flutter_run.log",
        flutter_log_handle := some { closed := false } }
      { pid := 9, poll := none, stdin_ok := true }
      { graceful_exit := false, kill_wait_ok := true } 10 rfl rfl).2.1 rfl rfl
    exact h.trans rfl

/-- C6: `hot_reload_flutter_run` and `hot_restart_flutter_run` are no-ops
with an explanatory status (no effect, no state change) when the record is
not live or stdin is unavailable; otherwise they write exactly the two
characters of the fixed control line to the input stream, flush it
immediately, return a confirmation, and change nothing else. -/
theorem hot_commands_spec (st : Manager) :
    (flutterActive st = false →
      hot_reload_flutter_run st =
        ("No active flutter run process. Start one with start_flutter_run first.", st, []) ∧
      hot_restart_flutter_run st =
        ("No active flutter run process. Start one with start_flutter_run first.", st, [])) ∧
    (∀ p, st.flutter_process = some p → p.poll = none → p.stdin_ok = false →
      hot_reload_flutter_run st =
        ("Flutter process stdin is unavailable; cannot send hot reload command.", st, []) ∧
      hot_restart_flutter_run st =
        ("Flutter process stdin is unavailable; cannot send hot restart command.", st, [])) ∧
    (∀ p, st.flutter_process = some p → p.poll = none → p.stdin_ok = true →
      hot_reload_flutter_run st =
        ("Hot reload command sent to flutter run.", st,
          [Effect.writeStdin "r\n", Effect.flushStdin]) ∧
      hot_restart_flutter_run st =
        ("Hot restart command sent to flutter run.", st,
          [Effect.writeStdin "R\n", Effect.flushStdin])) := by
  refine ⟨?_, ?_, ?_⟩
  · intro hact
    cases hfp : st.flutter_process with
    | none => simp [hot_reload_flutter_run, hot_restart_flutter_run, hfp]
    | some p =>
      have hpoll' : ¬ p.poll = none := by
        cases hpq : p.poll with
        | none => rw [flutterActive, hfp] at hact; simp [hpq] at hact
        | some c => simp
      simp [hot_reload_flutter_run, hot_restart_flutter_run, hfp, hpoll']
  · intro p hfp hpoll hstdin
    simp [hot_reload_flutter_run, hot_restart_flutter_run, hfp, hpoll, hstdin]
  · intro p hfp hpoll hstdin
    simp [hot_reload_flutter_run, hot_restart_flutter_run, hfp, hpoll, hstdin]

/-- Witness for `hot_commands_spec` at a concrete live record with stdin
available, and at the never-started record. -/
theorem hot_commands_spec_witness :
    hot_reload_flutter_run
        { device_serial := "emu",
          flutter_process := some { pid := 3, poll := none, stdin_ok := true },
          flutter_log_path := some "p/.mcp_flutter_run.log",
          flutter_log_handle := some { closed := false } } =
      ("Hot reload command sent to flutter run.",
        { device_serial := "emu",
          flutter_process := some { pid := 3, poll := none, stdin_ok := true },
          flutter_log_path := some "p/.mcp_flutter_run.log",
          flutter_log_handle := some { closed := false } },
        [Effect.writeStdin "r\n", Effect.flushStdin]) ∧
    hot_restart_flutter_run
        { device_serial := "emu", flutter_process := none,
          flutter_log_path := none, flutter_log_handle := none } =
      ("No active flutter run process. Start one with start_flutter_run first.",
        { device_serial := "emu", flutter_process := none,
          flutter_log_path := none, flutter_log_handle := none }, []) := by
  constructor
  · exact ((hot_commands_spec
      { device_serial := "emu",
        flutter_process := some { pid := 3, poll := none, stdin_ok := true },
        flutter_log_path := some "p/.mcp_flutter_run.log",
        flutter_log_handle := some { closed := false } }).2.2
      { pid := 3, poll := none, stdin_ok := true } rfl rfl rfl).1
  · exact ((hot_commands_spec
      { device_serial := "emu", flutter_process := none,
        flutter_log_path := none, flutter_log_handle := none }).1 rfl).2

end FlutterMcp

namespace FlutterMcp

/-- C9: `get_flutter_run_log` distinguishes the three fallback cases from
the normal one — guidance message when no log path was ever recorded,
not-found message when the file is gone, the non-empty "(log file is
empty)" sentinel for an existing empty file — and otherwise returns the
last N lines of the file (all of them when it has fewer), flushing the open
handle first. -/
theorem get_flutter_run_log_spec (st : Manager) (path : String) (ls : List String) (n : Int) :
    (st.flutter_log_path = none →
      ∀ c m, get_flutter_run_log st c m =
        ("No flutter log available yet. Start flutter run first.", [])) ∧
    (st.flutter_log_path = some path →
      (get_flutter_run_log st none n).1 = "No log file found at " ++ path) ∧
    (st.flutter_log_path = some path →
      (get_flutter_run_log st (some []) n).1 = "(log file is empty)" ∧
        ("(log file is empty)" : String) ≠ "") ∧
    (st.flutter_log_path = some path → ls ≠ [] → 1 ≤ n →
      (get_flutter_run_log st (some ls) n).1 =
        pyRstrip (pyJoin (ls.drop (ls.length - min ls.length n.toNat)))) ∧
    (st.flutter_log_path = some path → ls ≠ [] → 1 ≤ n → ls.length ≤ n.toNat →
      (get_flutter_run_log st (some ls) n).1 = pyRstrip (pyJoin ls)) ∧
    (∀ h, st.flutter_log_path = some path → st.flutter_log_handle = some h →
      h.closed = false →
      Effect.flushLog ∈ (get_flutter_run_log st (some ls) n).2) := by
  have hlast : ∀ (hne : ls ≠ []) (hn : 1 ≤ n),
      tail_file (some ls) path (max 1 n) =
        pyRstrip (pyJoin (ls.drop (ls.length - min ls.length n.toNat))) := by
    intro hne hn
    have hmax : max 1 n = n := max_eq_right hn
    have hpos : (0 : Int) < n := by omega
    have hemp : ¬ ls.isEmpty := by simpa using hne
    simp [tail_file, hemp, pyTailSlice, hmax, hpos]
  refine ⟨?_, ?_, ?_, ?_, ?_, ?_⟩
  · intro hpath c m
    simp [get_flutter_run_log, hpath]
  · intro hpath
    simp [get_flutter_run_log, hpath, tail_file]
  · intro hpath
    refine ⟨?_, by decide⟩
    simp [get_flutter_run_log, hpath, tail_file]
  · intro hpath hne hn
    simp [get_flutter_run_log, hpath, hlast hne hn]
  · intro hpath hne hn hlen
    have h1 := hlast hne hn
    rw [Nat.min_eq_left hlen, Nat.sub_self, List.drop_zero] at h1
    simp [get_flutter_run_log, hpath, h1]
  · intro h hpath hh hclosed
    simp [get_flutter_run_log, hpath, hh, hclosed]

/-- Witness for `get_flutter_run_log_spec`: requesting 60 lines of a
two-line log returns both lines; an empty log returns the sentinel; a
missing file returns the not-found message; a never-started manager returns
the guidance message. -/
theorem get_flutter_run_log_spec_witness :
    (get_flutter_run_log
        { device_serial := "emu", flutter_process := none,
          flutter_log_path := some "proj/.mcp_flutter_run.log",
          flutter_log_handle := none }
        (some ["first line\n", "second line\n"]) 60).1 = "first line\nsecond line" ∧
    (get_flutter_run_log
        { device_serial := "emu", flutter_process := none,
          flutter_log_path := some "proj/.mcp_flutter_run.log",
          flutter_log_handle := none }
        (some []) 60).1 = "(log file is empty)" ∧
    (get_flutter_run_log
        { device_serial := "emu", flutter_process := none,
          flutter_log_path := some "proj/.mcp_flutter_run.log",
          flutter_log_handle := none }
        none 60).1 = "No log file found at proj/.mcp_flutter_run.log" ∧
    (get_flutter_run_log
        { device_serial := "emu", flutter_process := none,
          flutter_log_path := none, flutter_log_handle := none }
        (some ["x\n"]) 60) =
      ("No flutter log available yet. Start flutter run first.", []) := by
  refine ⟨?_, ?_, ?_, ?_⟩
  · have h := (get_flutter_run_log_spec
      { device_serial := "emu", flutter_process := none,
        flutter_log_path := some "proj/.mcp_flutter_run.log",
        flutter_log_handle := none }
      "proj/.mcp_flutter_run.log" ["first line\n", "second line\n"] 60).2.2.2.2.1
      rfl (by decide) (by decide) (by decide)
    exact h.trans rfl
  · exact ((get_flutter_run_log_spec
      { device_serial := "emu", flutter_process := none,
        flutter_log_path := some "proj/.mcp_flutter_run.log",
        flutter_log_handle := none }
      "proj/.mcp_flutter_run.log" [] 60).2.2.1 rfl).1
  · exact (get_flutter_run_log_spec
      { device_serial := "emu", flutter_process := none,
        flutter_log_path := some "proj/.mcp_flutter_run.log",
        flutter_log_handle := none }
      "proj/.mcp_flutter_run.log" [] 60).2.1 rfl
  · exact (get_flutter_run_log_spec
      { device_serial := "emu", flutter_process := none,
        flutter_log_path := none, flutter_log_handle := none }
      "" [] 60).1 rfl (some ["x\n"]) 60

/-- C10 (implicit): a zero-or-negative `lines` request is clamped to 1 —
the call behaves exactly like a request for one line, so it returns at most
the last single line of the log (subject to the same fallbacks) and never
the entire file through a degenerate slice. -/
theorem get_flutter_run_log_clamps (st : Manager) (c : Option (List String)) (n : Int)
    (hn : n ≤ 0) :
    get_flutter_run_log st c n = get_flutter_run_log st c 1 ∧
    (∀ path ls, st.flutter_log_path = some path → c = some ls → ls ≠ [] →
      (get_flutter_run_log st c n).1 =
        pyRstrip (pyJoin (ls.drop (ls.length - 1)))) := by
  have hmax : max 1 n = 1 := max_eq_left (by omega)
  constructor
  · cases hpath : st.flutter_log_path with
    | none => simp [get_flutter_run_log, hpath]
    | some path => simp [get_flutter_run_log, hpath, hmax]
  · intro path ls hpath hc hne
    subst hc
    have hemp : ¬ ls.isEmpty := by simpa using hne
    have hlen : 1 ≤ ls.length := by
      cases ls with
      | nil => exact absurd rfl hne
      | cons a t => simp
    have hmin : min ls.length 1 = 1 := Nat.min_eq_right hlen
    simp [get_flutter_run_log, hpath, tail_file, hemp, pyTailSlice, hmax, hmin]

/-- Witness for `get_flutter_run_log_clamps`: requesting `0` lines of a
three-line log behaves like requesting one and returns only the last
line. -/
theorem get_flutter_run_log_clamps_witness :
    get_flutter_run_log
        { device_serial := "emu", flutter_process := none,
          flutter_log_path := some "proj/.mcp_flutter_run.log",
          flutter_log_handle := none }
        (some ["a\n", "b\n", "c\n"]) 0 =
      get_flutter_run_log
        { device_serial := "emu", flutter_process := none,
          flutter_log_path := some "proj/.mcp_flutter_run.log",
          flutter_log_handle := none }
        (some ["a\n", "b\n", "c\n"]) 1 ∧
    (get_flutter_run_log
        { device_serial := "emu", flutter_process := none,
          flutter_log_path := some "proj/.mcp_flutter_run.log",
          flutter_log_handle := none }
        (some ["a\n", "b\n", "c\n"]) 0).1 = "c" := by
  have h := get_flutter_run_log_clamps
    { device_serial := "emu", flutter_process := none,
      flutter_log_path := some "proj/.mcp_flutter_run.log",
      flutter_log_handle := none }
    (some ["a\n", "b\n", "c\n"]) 0 (by decide)
  refine ⟨h.1, ?_⟩
  have h2 := h.2 "proj/.mcp_flutter_run.log" ["a\n", "b\n", "c\n"] rfl rfl (by decide)
  exact h2.trans rfl

end FlutterMcp

namespace FlutterMcp

/-- Helper: a successful `find` witnesses that the pattern occurs in the
text. -/
theorem findSub_some_occurs {hay pat : List Char} {i : Nat}
    (h : findSub hay pat = some i) : pat <:+: hay := by
  induction hay generalizing i with
  | nil =>
    rw [findSub] at h
    by_cases hp : pat.isPrefixOf ([] : List Char)
    · exact (List.isPrefixOf_iff_prefix.mp hp).isInfix
    · simp [hp] at h
  | cons c t ih =>
    rw [findSub] at h
    by_cases hp : pat.isPrefixOf (c :: t)
    · exact (List.isPrefixOf_iff_prefix.mp hp).isInfix
    · simp only [hp, if_false, Bool.false_eq_true] at h
      cases hft : findSub t pat with
      | none => rw [hft] at h; simp at h
      | some j => exact (ih hft).trans (t.suffix_cons c).isInfix

/-- Helper: the extraction loop is the strip-then-filter pipeline. -/
theorem collectActions_eq (lines : List (List Char)) :
    collectActions lines =
      ((lines.map (fun l => String.mk (pyStrip l))).filter
        (fun s => isActionLine s.toList)) := by
  induction lines with
  | nil => rfl
  | cons l rest ih =>
    rw [collectActions]
    simp only [List.map_cons, List.filter_cons]
    have hms : (String.mk (pyStrip l)).toList = pyStrip l := rfl
    rw [hms]
    by_cases h : isActionLine (pyStrip l)
    · simp [h, ih]
    · simp [h, ih]

/-- C7: on every introspection text, the action-intent extraction returns
the empty sequence when the resolver section or the Non-Data subsection is
absent; otherwise it returns exactly the trimmed lines of the bounded
subsection that begin with a namespace marker (`android.` / `com.`, the
markers of the source), in original order (a sublist of the subsection's
trimmed lines), and no other lines. -/
theorem action_intents_spec (output : String) :
    (¬ resolverHeader <:+: output.toList → get_package_action_intents output = []) ∧
    (¬ nonDataHeader <:+: output.toList → get_package_action_intents output = []) ∧
    get_package_action_intents output = specActionIntents output ∧
    (∀ s ∈ get_package_action_intents output, isActionLine s.toList = true) ∧
    (∀ sec, nonDataSection output = some sec →
      List.Sublist (get_package_action_intents output)
        ((splitLines sec).map (fun l => String.mk (pyStrip l)))) := by
  have heq : get_package_action_intents output = specActionIntents output := by
    rw [get_package_action_intents, specActionIntents]
    cases nonDataSection output with
    | none => rfl
    | some sec => exact collectActions_eq (splitLines sec)
  refine ⟨?_, ?_, heq, ?_, ?_⟩
  · intro habs
    cases hfs : findSub output.data resolverHeader with
    | none => simp [get_package_action_intents, nonDataSection, hfs]
    | some i => exact absurd (findSub_some_occurs hfs) habs
  · intro habs
    cases hfs : findSub output.data resolverHeader with
    | none => simp [get_package_action_intents, nonDataSection, hfs]
    | some i =>
      cases hfn : findSub (List.drop i output.data) nonDataHeader with
      | none => simp [get_package_action_intents, nonDataSection, hfs, hfn]
      | some j =>
        exact absurd
          ((findSub_some_occurs hfn).trans (List.drop_suffix i output.data).isInfix) habs
  · intro s hs
    rw [heq, specActionIntents] at hs
    cases hnd : nonDataSection output with
    | none => rw [hnd] at hs; simp at hs
    | some sec =>
      rw [hnd] at hs
      exact (List.mem_filter.mp hs).2
  · intro sec hnd
    rw [heq, specActionIntents, hnd]
    exact List.filter_sublist _

set_option maxRecDepth 16384 in
/-- Witness for `action_intents_spec`: a text with no resolver section
yields the empty sequence; a well-formed section yields exactly the
namespace-prefixed lines, trimmed and in order. -/
theorem action_intents_spec_witness :
    get_package_action_intents "nothing relevant" = [] ∧
    get_package_action_intents
        "Activity Resolver Table:\n  Non-Data Actions:\n      android.intent.action.MAIN:\n        8a2c9f8 com.example/.MainActivity\n      com.example.CUSTOM:\n\n  Schemes:\n      android.later.IGNORED" =
      ["android.intent.action.MAIN:", "com.example.CUSTOM:"] := by
  constructor
  · refine (action_intents_spec "nothing relevant").1 ?_
    intro h
    have hl := h.length_le
    revert hl
    decide
  · have h := (action_intents_spec
      "Activity Resolver Table:\n  Non-Data Actions:\n      android.intent.action.MAIN:\n        8a2c9f8 com.example/.MainActivity\n      com.example.CUSTOM:\n\n  Schemes:\n      android.later.IGNORED").2.2.1
    exact h.trans rfl

end FlutterMcp

namespace FlutterMcp

/-- C8: UI-layout emission — an element is emitted iff it has non-empty
text or description; a bounds string parsing into exactly two coordinate
pairs yields the floor midpoint as center (in particular
`[0,0][100,200]` yields `(50, 100)`); any other number of parsed pairs
yields no center, in which case the element block is exactly the one
without the center line while the element is still emitted; and when no
element qualifies the operation returns the fixed sentinel string. -/
theorem get_uilayout_spec (elements : List UINode) (e : UINode) (b : String)
    (x1 y1 x2 y2 : Nat) :
    ((render_element e).isSome ↔ (e.text ≠ "" ∨ e.content_desc ≠ "")) ∧
    (findBoundsPairs b.toList = [(x1, y1), (x2, y2)] →
      calculate_center b = some ((x1 + x2) / 2, (y1 + y2) / 2)) ∧
    ((findBoundsPairs b.toList).length ≠ 2 → calculate_center b = none) ∧
    (calculate_center "[0,0][100,200]" = some (50, 100)) ∧
    ((e.text ≠ "" ∨ e.content_desc ≠ "") → calculate_center e.bounds = none →
      render_element e = some (element_info_base e)) ∧
    ((∀ x ∈ elements, x.text = "" ∧ x.content_desc = "") →
      get_uilayout elements = "No clickable elements found with text or description") := by
  refine ⟨?_, ?_, ?_, ?_, ?_, ?_⟩
  · by_cases h : (e.text != "" || e.content_desc != "") = true
    · simp only [render_element, h, if_true, Option.isSome_some, true_iff]
      simpa using h
    · simp only [render_element, h, if_false]
      constructor
      · intro hs
        simp at hs
      · intro hor
        exact absurd (by simpa using hor) h
  · intro h
    rw [calculate_center, h]
  · intro h
    rw [calculate_center]
    rcases hps : findBoundsPairs b.toList with _ | ⟨⟨a1, c1⟩, tl⟩
    · rfl
    · rcases tl with _ | ⟨⟨a2, c2⟩, tl2⟩
      · rfl
      · rcases tl2 with _ | ⟨p3, tl3⟩
        · rw [hps] at h
          simp at h
        · rfl
  · rfl
  · intro hq hc
    have hb : (e.text != "" || e.content_desc != "") = true := by simpa using hq
    rw [render_element, if_pos hb, element_info, hc]
  · intro hall
    rw [get_uilayout]
    have hnil : elements.filterMap render_element = [] := by
      rw [List.filterMap_eq_nil_iff]
      intro x hx
      rw [render_element, if_neg]
      simp [(hall x hx).1, (hall x hx).2]
    simp [hnil]

/-- Witness for `get_uilayout_spec`: the center of `[1,2][3,6]` is `(2, 4)`;
an emitted element with unparseable bounds gets no center line; a list with
no qualifying element yields the sentinel. -/
theorem get_uilayout_spec_witness :
    calculate_center "[1,2][3,6]" = some (2, 4) ∧
    render_element { text := "X", content_desc := "", bounds := "[5,5]" } =
      some "Clickable element:\n  Text: X\n  Bounds: [5,5]" ∧
    get_uilayout [{ text := "", content_desc := "", bounds := "[0,0][10,10]" }] =
      "No clickable elements found with text or description" := by
  refine ⟨?_, ?_, ?_⟩
  · have h := (get_uilayout_spec [] ⟨"", "", ""⟩ "[1,2][3,6]" 1 2 3 6).2.1 (by decide)
    exact h.trans rfl
  · have h := (get_uilayout_spec [] { text := "X", content_desc := "", bounds := "[5,5]" }
      "" 0 0 0 0).2.2.2.2.1 (by simp) (by decide)
    exact h.trans rfl
  · exact (get_uilayout_spec [{ text := "", content_desc := "", bounds := "[0,0][10,10]" }]
      ⟨"", "", ""⟩ "" 0 0 0 0).2.2.2.2.2 (by decide)

end FlutterMcp
